import Mathlib

/-!
# TAFEP Voice Chatbot — shallow embedding and verification

A shallow Lean embedding of the conversation core of the TAFEP voice
chatbot (Python): `src/utils/helpers.py` (`normalize_string`),
`src/conversation/analyzer.py` (`ConversationAnalyzer`),
`src/conversation/handler.py` (`ConversationHandler`), `src/services/tts.py`
(`TextToSpeech`), and `config.py` (`Config`).

Modelling conventions:
* LLM provider calls are an oracle parameter `String → Except String String`
  (prompt to either generated text or a raised transport/provider error).
* `async`/`await` sequencing is modelled by direct calls; `try`/`except`
  blocks become explicit `Except` handling.
* The email capability (`services/email_sender.py` is not part of the
  sources) is a parameter, modelled from the spec.
* The per-handler prompt templates are abridged to their distinctive text
  plus the interpolated values; the spec declares the literal prompt wording
  out of scope, and no verified property depends on it.
* The `emotions` argument that every stage handler receives is never read by
  any handler in the source, so it is omitted from the embedding.
-/

/-- `ConversationState`: the mutable per-session state dictionary created in
`ConversationHandler.handle_conversation` (handler.py lines 23-30). -/
structure ConversationState where
  issue_established : Bool
  discrimination_type_categorized : Bool
  probe_counter : Nat
  probing_completed : Bool
  user_agreed_to_file_case : Bool
deriving Repr, DecidableEq

/-- The initial all-false/zero conversation state (handler.py lines 24-30). -/
def initialState : ConversationState :=
  { issue_established := false
    discrimination_type_categorized := false
    probe_counter := 0
    probing_completed := false
    user_agreed_to_file_case := false }

/-- One entry of the conversation repository: a `{"role": ..., "content": ...}`
dictionary (handler.py lines 63-66). -/
structure Entry where
  role : String
  content : String
deriving Repr, DecidableEq

/-- The two LLM providers selectable via `Config.AI_MODEL`
(analyzer.py lines 16-22). -/
inductive Provider
  | openAI
  | anthropicAI
deriving Repr, DecidableEq

/-- Environment of capabilities and configuration threaded through the
conversation core: the LLM call, the email capability, and the two values of
`Config` the core reads (`PROBE_LIMIT`, `MAX_CONVERSATION_HISTORY`,
config.py lines 57-58).  Note: `maxConversationHistory` is validated as a
required setting by `Config.validate_config` but no code under `src/` ever
reads it. -/
structure Env where
  provider : Provider
  oracle : String → Except String String
  /-- Modelled from the spec: `services/email_sender.py` is absent from the
  sources; the spec describes the capability as
  `send_case(summary, history) -> success/failure`. -/
  email : String → List Entry → Bool
  probeLimit : Nat
  maxConversationHistory : Nat

/-- Python's `str.strip()`: drop whitespace from both ends (defined
structurally over the character list so that it evaluates by kernel
reduction). -/
def pyStrip (s : String) : String :=
  String.mk
    ((((s.toList.dropWhile Char.isWhitespace).reverse.dropWhile
        Char.isWhitespace).reverse))

/-- `normalize_string` (helpers.py lines 11-21):
`re.sub(r'[^a-zA-Z]', '', input_string).lower()` — drop every
non-alphabetic character, then lowercase. -/
def normalize_string (s : String) : String :=
  String.mk ((s.toList.filter Char.isAlpha).map Char.toLower)

/-- Python `repr` of one history entry, as interpolated into prompts. -/
def reprEntry (e : Entry) : String :=
  "\x7b'role': '" ++ e.role ++ "', 'content': '" ++ e.content ++ "'\x7d"

/-- Python `repr` of the conversation repository, as interpolated into
prompts (`{conversation_repository}` in the f-strings). -/
def reprRepo (repo : List Entry) : String :=
  "[" ++ String.intercalate ", " (repo.map reprEntry) ++ "]"

/-- Yes/No rendering of a boolean state field used by the OpenAI classifier
prompt (analyzer.py lines 31-34). -/
def yesNo (b : Bool) : String := if b then "Yes" else "No"

/-- `ConversationAnalyzer._get_openai_prompt` (analyzer.py lines 24-42),
abridged to the interpolated values plus distinctive text. -/
def _get_openai_prompt (user_input : String) (repo : List Entry)
    (state : ConversationState) : String :=
  "You are a professional TAFEP digital advisor. User input: \"" ++ user_input ++
  "\" Conversation history: " ++ reprRepo repo ++
  " Issue Established: " ++ yesNo state.issue_established ++
  " Discrimination Type Categorized: " ++ yesNo state.discrimination_type_categorized ++
  " Probe Count: " ++ toString state.probe_counter ++
  " Probing Completed: " ++ yesNo state.probing_completed ++
  " Determine the next action category."

/-- `ConversationAnalyzer._get_anthropic_prompt` (analyzer.py lines 44-76),
abridged to the interpolated values plus distinctive text. -/
def _get_anthropic_prompt (user_input : String) (repo : List Entry)
    (state : ConversationState) : String :=
  "<system>You are a TAFEP digital advisor.</system><input>" ++ user_input ++
  "</input><history>" ++ reprRepo repo ++
  "</history><issue_established>" ++ toString state.issue_established ++
  "</issue_established><discrimination_categorized>" ++
  toString state.discrimination_type_categorized ++
  "</discrimination_categorized><probe_count>" ++ toString state.probe_counter ++
  "</probe_count><probing_completed>" ++ toString state.probing_completed ++
  "</probing_completed>"

/-- The classifier prompt selected by provider
(analyzer.py lines 92-95). -/
def classifierPrompt (provider : Provider) (user_input : String)
    (repo : List Entry) (state : ConversationState) : String :=
  match provider with
  | .openAI => _get_openai_prompt user_input repo state
  | .anthropicAI => _get_anthropic_prompt user_input repo state

/-- `ConversationAnalyzer._generate_openai_response` (analyzer.py lines
124-143): calls the provider, strips the result; on exception logs and
re-raises. -/
def _generate_openai_response (oracle : String → Except String String)
    (prompt : String) : Except String String :=
  (oracle prompt).map pyStrip

/-- `ConversationAnalyzer._generate_anthropic_response` (analyzer.py lines
145-160): calls the provider; on exception logs and re-raises. -/
def _generate_anthropic_response (oracle : String → Except String String)
    (prompt : String) : Except String String :=
  oracle prompt

/-- `ConversationAnalyzer.generate_ai_response` (analyzer.py lines 105-122):
dispatch by provider; any exception is absorbed and the sentinel string
`"Error"` is returned. -/
def generate_ai_response (env : Env) (prompt : String) : String :=
  match (match env.provider with
         | .openAI => _generate_openai_response env.oracle prompt
         | .anthropicAI => _generate_anthropic_response env.oracle prompt) with
  | .ok t => t
  | .error _ => "Error"

/-- `ConversationAnalyzer.analyze_user_input` (analyzer.py lines 78-103):
build the provider prompt, generate, `strip()` the result; any exception is
absorbed into the sentinel `"Error"`. -/
def analyze_user_input (env : Env) (user_input : String) (repo : List Entry)
    (state : ConversationState) : String :=
  pyStrip (generate_ai_response env (classifierPrompt env.provider user_input repo state))

/-- Observable side effects of one handler invocation, instrumenting the two
branch paths of `_ask_to_file_case` (handler.py lines 181-198):
`filings` counts invocations of `_file_case_and_send_email`,
`consentPrompts` counts generations of the generic ask-for-consent reply. -/
structure Effects where
  filings : Nat
  consentPrompts : Nat
deriving Repr, DecidableEq

/-- No side effects. -/
def Effects.none : Effects := { filings := 0, consentPrompts := 0 }

/-- Result of one stage handler: the reply string, the (possibly mutated)
conversation state, and the observable effects. -/
structure HandlerOut where
  reply : String
  state : ConversationState
  eff : Effects
deriving Repr, DecidableEq

/-- Prompt of `_establish_issue` (handler.py lines 127-136), abridged. -/
def establishIssuePrompt (user_input : String) (repo : List Entry) : String :=
  "Based on: \"" ++ user_input ++ "\" Previous conversation: " ++ reprRepo repo ++
  " Task: Establish the specific discrimination issue."

/-- Prompt of `_categorize_discrimination` (handler.py lines 144-153),
abridged. -/
def categorizeDiscriminationPrompt (user_input : String) (repo : List Entry) : String :=
  "Based on: \"" ++ user_input ++ "\" Previous conversation: " ++ reprRepo repo ++
  " Task: Categorize the discrimination type."

/-- Prompt of `_probe_further_information` (handler.py lines 167-177),
abridged; it also interpolates the incremented probe counter. -/
def probePrompt (user_input : String) (repo : List Entry) (probeCount : Nat) : String :=
  "Based on: \"" ++ user_input ++ "\" Previous conversation: " ++ reprRepo repo ++
  " Probe count: " ++ toString probeCount ++
  " Task: Gather more details about the discrimination case."

/-- Prompt of `_ask_to_file_case` (handler.py lines 186-196), abridged. -/
def askFilingPrompt (user_input : String) (repo : List Entry) : String :=
  "Based on gathered information: User input: \"" ++ user_input ++
  "\" Conversation: " ++ reprRepo repo ++
  " Task: Ask if they want to file a case with TAFEP."

/-- Prompt of `_closure_conversation` (handler.py lines 202-208): a constant,
it interpolates nothing. -/
def closureConversationPrompt : String :=
  "Task: Close the conversation professionally."

/-- Prompt of `_generate_case_summary` (handler.py lines 235-243),
abridged. -/
def caseSummaryPrompt (repo : List Entry) : String :=
  "Based on this conversation: " ++ reprRepo repo ++
  " Create a concise summary."

/-- The fixed confirmation reply of `_file_case_and_send_email`
(handler.py line 225). -/
def filingConfirmationText : String :=
  "Thank you. Your case has been filed with TAFEP. You will receive a confirmation email shortly."

/-- Contiguous-substring containment on character lists (Python's `in` on
strings). -/
def hasSubstr (needle : List Char) : List Char → Bool
  | [] => needle.isEmpty
  | c :: rest => needle.isPrefixOf (c :: rest) || hasSubstr needle rest

/-- Python's `"yes" in user_input.lower()` (handler.py line 183): substring
containment in the lowercased input. -/
def containsYes (user_input : String) : Bool :=
  hasSubstr "yes".toList (user_input.toList.map Char.toLower)

/-- `ConversationHandler._generate_case_summary` (handler.py lines 233-245). -/
def _generate_case_summary (env : Env) (repo : List Entry) : String :=
  generate_ai_response env (caseSummaryPrompt repo)

/-- `ConversationHandler._file_case_and_send_email` (handler.py lines
212-231): generate a case summary, dispatch the email; a `True` send yields
the fixed confirmation, a `False` send (or any exception) yields `"Error"`. -/
def _file_case_and_send_email (env : Env) (repo : List Entry) : String × Effects :=
  let case_summary := _generate_case_summary env repo
  let email_sent := env.email case_summary repo
  (if email_sent then filingConfirmationText else "Error",
   { filings := 1, consentPrompts := 0 })

/-- `ConversationHandler._ask_to_file_case` (handler.py lines 181-198):
if the lowercased input contains `"yes"`, delegate to
`_file_case_and_send_email`; otherwise generate the consent-request reply.
The state is not touched on either path. -/
def _ask_to_file_case (env : Env) (user_input : String) (repo : List Entry)
    (state : ConversationState) : HandlerOut :=
  if containsYes user_input then
    let (reply, eff) := _file_case_and_send_email env repo
    { reply := reply, state := state, eff := eff }
  else
    { reply := generate_ai_response env (askFilingPrompt user_input repo)
      state := state
      eff := { filings := 0, consentPrompts := 1 } }

/-- `ConversationHandler._establish_issue` (handler.py lines 125-140):
generate the reply, then unconditionally set `issue_established := true`. -/
def _establish_issue (env : Env) (user_input : String) (repo : List Entry)
    (state : ConversationState) : HandlerOut :=
  let response := generate_ai_response env (establishIssuePrompt user_input repo)
  { reply := response
    state := { state with issue_established := true }
    eff := Effects.none }

/-- `ConversationHandler._categorize_discrimination` (handler.py lines
142-157): generate the reply, then unconditionally set
`discrimination_type_categorized := true`. -/
def _categorize_discrimination (env : Env) (user_input : String) (repo : List Entry)
    (state : ConversationState) : HandlerOut :=
  let response := generate_ai_response env (categorizeDiscriminationPrompt user_input repo)
  { reply := response
    state := { state with discrimination_type_categorized := true }
    eff := Effects.none }

/-- `ConversationHandler._probe_further_information` (handler.py lines
159-179): increment `probe_counter` first; if it has reached
`Config.PROBE_LIMIT`, set `probing_completed := true` and delegate to
`_ask_to_file_case` in the same turn; otherwise generate a probing reply. -/
def _probe_further_information (env : Env) (user_input : String) (repo : List Entry)
    (state : ConversationState) : HandlerOut :=
  let state := { state with probe_counter := state.probe_counter + 1 }
  if env.probeLimit ≤ state.probe_counter then
    let state := { state with probing_completed := true }
    _ask_to_file_case env user_input repo state
  else
    { reply := generate_ai_response env (probePrompt user_input repo state.probe_counter)
      state := state
      eff := Effects.none }

/-- `ConversationHandler._closure_conversation` (handler.py lines 200-210):
generate the closing reply from a constant prompt; no state change. -/
def _closure_conversation (env : Env) (_user_input : String) (_repo : List Entry)
    (state : ConversationState) : HandlerOut :=
  { reply := generate_ai_response env closureConversationPrompt
    state := state
    eff := Effects.none }

/-- The closed set of dispatchable stage handlers, the keys of the
`handlers` dictionary in `_get_handler_function` (handler.py lines
115-121). -/
inductive HandlerTag
  | establishissue
  | categorizediscriminationtype
  | probeforfurtherinformation
  | askaboutfilingcase
  | closureconversation
deriving Repr, DecidableEq

/-- `ConversationHandler._get_handler_function` (handler.py lines 111-123):
normalize the category, then look it up in the handler dictionary; an
unknown key yields `none`. -/
def _get_handler_function (category : String) : Option HandlerTag :=
  let c := normalize_string category
  if c = "establishissue" then some .establishissue
  else if c = "categorizediscriminationtype" then some .categorizediscriminationtype
  else if c = "probeforfurtherinformation" then some .probeforfurtherinformation
  else if c = "askaboutfilingcase" then some .askaboutfilingcase
  else if c = "closureconversation" then some .closureconversation
  else none

/-- Run the handler selected by a tag (the call through the dictionary value
in `_generate_response`, handler.py line 103). -/
def runHandler (tag : HandlerTag) (env : Env) (user_input : String)
    (repo : List Entry) (state : ConversationState) : HandlerOut :=
  match tag with
  | .establishissue => _establish_issue env user_input repo state
  | .categorizediscriminationtype => _categorize_discrimination env user_input repo state
  | .probeforfurtherinformation => _probe_further_information env user_input repo state
  | .askaboutfilingcase => _ask_to_file_case env user_input repo state
  | .closureconversation => _closure_conversation env user_input repo state

/-- `ConversationHandler._generate_response` (handler.py lines 90-109):
classify the input, look up the handler by normalized category, run it; a
missing handler (or any exception) yields the `"Error"` sentinel with the
state untouched. -/
def _generate_response (env : Env) (user_input : String) (repo : List Entry)
    (state : ConversationState) : HandlerOut :=
  let category := analyze_user_input env user_input repo state
  match _get_handler_function category with
  | some tag => runHandler tag env user_input repo state
  | none => { reply := "Error", state := state, eff := Effects.none }

/-- Outcome of one iteration of the conversation loop for one transcript:
the handler reply, the repository and state afterwards, the utterances
spoken via TTS, and how many `"Error generating response"` log lines were
emitted. -/
structure TurnOutcome where
  response : String
  repo : List Entry
  state : ConversationState
  spoken : List String
  errorsLogged : Nat
deriving Repr, DecidableEq

/-- One iteration of the loop body of
`ConversationHandler.handle_conversation` (handler.py lines 49-71) for a
received transcript: generate the response; if it is falsy (empty) nothing
happens; if it is the `"Error"` sentinel the error is only logged; otherwise
the reply is appended to the repository as an assistant entry and spoken. -/
def handleTurn (env : Env) (transcript : String) (repo : List Entry)
    (state : ConversationState) : TurnOutcome :=
  let out := _generate_response env transcript repo state
  if out.reply = "" then
    { response := out.reply, repo := repo, state := out.state
      spoken := [], errorsLogged := 0 }
  else if out.reply = "Error" then
    { response := out.reply, repo := repo, state := out.state
      spoken := [], errorsLogged := 1 }
  else
    { response := out.reply
      repo := repo ++ [{ role := "assistant", content := out.reply }]
      state := out.state
      spoken := [out.reply]
      errorsLogged := 0 }

/-- Fold `handleTurn` over a sequence of transcripts (iterations of the
`while True` loop, handler.py lines 37-75). -/
def runTurns (env : Env) (transcripts : List String) (repo : List Entry)
    (state : ConversationState) : List Entry × ConversationState :=
  transcripts.foldl
    (fun acc t =>
      let o := handleTurn env t acc.1 acc.2
      (o.repo, o.state))
    (repo, state)

/-- Observable events of a `TextToSpeech` invocation (tts.py): observer
notifications (`_notify_speaking_state`), the internal `_speaking_event`
being cleared/set, synthesis and playback completion, and error-log lines. -/
inductive TtsEvent
  | notify (speaking : Bool)
  | eventCleared
  | eventSet
  | synthesized
  | played
  | errorLogged
deriving Repr, DecidableEq

/-- `TextToSpeech._play_audio` (tts.py lines 164-192): on playback success
notify `speaking = false`; on any playback exception log, notify
`speaking = false`, and re-raise (the returned `Option String` is the
re-raised exception). -/
def _play_audio (play : Except String Unit) : List TtsEvent × Option String :=
  match play with
  | .ok _ => ([.played, .notify false], none)
  | .error e => ([.errorLogged, .notify false], some e)

/-- `TextToSpeech.speak_with_wavenet` (tts.py lines 99-162) as the trace of
events it emits, parameterized by the outcomes of synthesis (`synth`) and
playback (`play`).  Empty or whitespace-only text is rejected up front with
only a log line.  Otherwise, inside the `_speaking_lock`: wait for and clear
the `_speaking_event`, notify `speaking = true`, synthesize, play; any
exception is caught and logged and `speaking = false` is notified in the
`except` branch; the `finally` branch always sets the `_speaking_event`. -/
def speak_with_wavenet (synth play : Except String Unit) (text : String) :
    List TtsEvent :=
  if text = "" ∨ pyStrip text = "" then [.errorLogged]
  else
    [.eventCleared, .notify true] ++
    (match synth with
     | .error _ => [.errorLogged, .notify false, .eventSet]
     | .ok _ =>
       [.synthesized] ++
       (let p := _play_audio play
        p.1 ++
        (match p.2 with
         | none => [.eventSet]
         | some _ => [.errorLogged, .notify false, .eventSet])))

/-!
## Speech Output Gate: interleaving model of two concurrent `speak` calls

Two concurrent invocations of `TextToSpeech.speak_with_wavenet` on the same
`TextToSpeech` instance are modelled as two tasks interleaved by a
cooperative scheduler, each executing the (success-path) action sequence of
the source in order.  The program counter values of a task mean:

* `0` — about to enter `async with self._speaking_lock` (tts.py line 112);
* `1` — holds the lock, about to `await self._speaking_event.wait()` and
  `clear()` it (lines 115-116);
* `2` — about to notify `speaking = true` (line 119);
* `3` — about to synthesize (lines 142-149): executing this step is when the
  call's synthesis begins;
* `4` — about to play the audio (line 156);
* `5` — about to notify `speaking = false` (the tail of `_play_audio`,
  line 187; in the failure paths this notification comes even earlier,
  lines 158-160 and 189-191, still under the lock);
* `6` — about to `self._speaking_event.set()` (`finally`, line 162);
* `7` — about to release `_speaking_lock` (leaving the `async with`);
* `8` — done.

While a task's counter is in `3..5` it is inside its `speaking = true`
window (the `true` notification has fired, the `false` one has not). -/

/-- Shared state of the two-task speech-gate model: the owner of
`_speaking_lock` (if any), the `_speaking_event` flag, and each task's
program counter. -/
structure GateState where
  lock : Option (Fin 2)
  event : Bool
  pc : Fin 2 → Nat

/-- Initial gate state: lock free, `_speaking_event` initially set
(tts.py line 21), both calls not yet started. -/
def gateInit : GateState :=
  { lock := none, event := true, pc := fun _ => 0 }

/-- Whether task `i` can take its next step: every action needs the task to
be unfinished; acquiring the lock (pc `0`) additionally needs the lock free,
and `wait()` on the event (pc `1`) needs the event set. -/
def gateEnabled (s : GateState) (i : Fin 2) : Prop :=
  s.pc i < 8 ∧ (s.pc i = 0 → s.lock = none) ∧ (s.pc i = 1 → s.event = true)

/-- Effect of task `i` executing the action at its program counter (see the
pc legend above), given field-wise: acquiring (pc `0`) takes the lock and
releasing (pc `7`) frees it; `wait`+`clear` (pc `1`) clears the event and the
`finally` (pc `6`) sets it; every action advances the task's counter. -/
def gateStep (s : GateState) (i : Fin 2) : GateState :=
  { lock := if s.pc i = 0 then some i else if s.pc i = 7 then none else s.lock
    event := if s.pc i = 1 then false else if s.pc i = 6 then true else s.event
    pc := Function.update s.pc i (s.pc i + 1) }

/-- States reachable by interleaving the two `speak` invocations from the
initial state. -/
inductive GateReachable : GateState → Prop
  | init : GateReachable gateInit
  | step (s : GateState) (i : Fin 2) :
      GateReachable s → gateEnabled s i → GateReachable (gateStep s i)

/-- Task `i` is inside its `speaking = true` window: the `true` notification
has fired and the `false` one has not. -/
def speakingWindow (s : GateState) (i : Fin 2) : Prop :=
  3 ≤ s.pc i ∧ s.pc i ≤ 5

/-- Inductive invariant of the gate model: counters stay in range and any
task strictly between lock acquisition and lock release owns the lock. -/
def GateInv (s : GateState) : Prop :=
  (∀ i, s.pc i ≤ 8) ∧ (∀ i, 1 ≤ s.pc i → s.pc i ≤ 7 → s.lock = some i)

/-- The five canonical category labels, the keys of the handler dictionary
(handler.py lines 115-121). -/
def canonicalLabels : List String :=
  ["establishissue", "categorizediscriminationtype", "probeforfurtherinformation",
   "askaboutfilingcase", "closureconversation"]

/-- From the spec (§7): the standard fallback apology utterance.  This
definition follows the spec's words for comparison with the source; the
string occurs nowhere in the sources. -/
def specApologyText : String :=
  "I apologize, but I encountered an error. Could you please repeat that?"

/-- Concrete environment whose provider always returns the malformed
classifier output `"42"`. -/
def env42 : Env :=
  { provider := .anthropicAI
    oracle := fun _ => .ok "42"
    email := fun _ _ => true
    probeLimit := 5
    maxConversationHistory := 10 }

/-- Concrete environment whose provider classifies every turn as
`"Closure Conversation"` and answers the closure prompt with `"Goodbye."`;
its `MAX_CONVERSATION_HISTORY` is 1. -/
def envClosure : Env :=
  { provider := .anthropicAI
    oracle := fun p =>
      .ok (if p = closureConversationPrompt then "Goodbye." else "Closure Conversation")
    email := fun _ _ => true
    probeLimit := 5
    maxConversationHistory := 1 }

/-- Concrete environment whose provider call always raises a transport
failure. -/
def envFail : Env :=
  { provider := .openAI
    oracle := fun _ => .error "transport failure"
    email := fun _ _ => false
    probeLimit := 5
    maxConversationHistory := 10 }

/-- `env42` with `PROBE_LIMIT = 1`. -/
def envLimit1 : Env :=
  { env42 with probeLimit := 1 }

/-- Gate state after the first task has acquired the lock. -/
def gate1 : GateState := gateStep gateInit 0

/-- Gate state after the first task has additionally waited on and cleared
the event. -/
def gate2 : GateState := gateStep gate1 0

/-- Gate state after the first task has additionally notified
`speaking = true`: it is now inside its speaking window. -/
def gate3 : GateState := gateStep gate2 0

/-- Conversation states reachable from the initial state through stage
handler invocations (the only writers of the state, handler.py lines
125-210). -/
inductive ReachableState (env : Env) : ConversationState → Prop
  | init : ReachableState env initialState
  | step (s : ConversationState) (tag : HandlerTag) (input : String) (repo : List Entry) :
      ReachableState env s → ReachableState env (runHandler tag env input repo s).state

instance gateEnabledDecidable (s : GateState) (i : Fin 2) : Decidable (gateEnabled s i) :=
  inferInstanceAs
    (Decidable (s.pc i < 8 ∧ (s.pc i = 0 → s.lock = none) ∧ (s.pc i = 1 → s.event = true)))

theorem ask_to_file_case_state (env : Env) (input : String) (repo : List Entry)
    (s : ConversationState) : (_ask_to_file_case env input repo s).state = s := by
  unfold _ask_to_file_case
  by_cases h : containsYes input <;> simp [h]

theorem ask_to_file_case_reply_ignores_state (env : Env) (input : String)
    (repo : List Entry) (s₁ s₂ : ConversationState) :
    (_ask_to_file_case env input repo s₁).reply = (_ask_to_file_case env input repo s₂).reply := by
  unfold _ask_to_file_case
  by_cases h : containsYes input <;> simp [h]

theorem probe_further_information_state (env : Env) (input : String)
    (repo : List Entry) (s : ConversationState) :
    (_probe_further_information env input repo s).state =
      (if env.probeLimit ≤ s.probe_counter + 1 then
        { s with probe_counter := s.probe_counter + 1, probing_completed := true }
      else
        { s with probe_counter := s.probe_counter + 1 }) := by
  unfold _probe_further_information
  by_cases h : env.probeLimit ≤ s.probe_counter + 1 <;>
    simp [h, ask_to_file_case_state]

theorem gateInv_init : GateInv gateInit := by
  constructor
  · intro i; simp [gateInit]
  · intro i h1 _; simp [gateInit] at h1

theorem gateInv_step (s : GateState) (i : Fin 2)
    (h : GateInv s) (he : gateEnabled s i) : GateInv (gateStep s i) := by
  obtain ⟨hle, hlock⟩ := h
  obtain ⟨hlt, h0, _⟩ := he
  constructor
  · intro k
    by_cases hk : k = i
    · subst hk
      simp only [gateStep, Function.update_same]
      omega
    · simp only [gateStep, Function.update_noteq hk]
      exact hle k
  · intro k h1 h2
    simp only [gateStep] at h1 h2 ⊢
    by_cases hk : k = i
    · subst hk
      rw [Function.update_same] at h1 h2
      by_cases c0 : s.pc k = 0
      · simp [c0]
      · have c7 : s.pc k ≠ 7 := by omega
        rw [if_neg c0, if_neg c7]
        exact hlock k (by omega) (by omega)
    · rw [Function.update_noteq hk] at h1 h2
      have hl := hlock k h1 h2
      by_cases c0 : s.pc i = 0
      · rw [h0 c0] at hl
        exact absurd hl (by simp)
      · by_cases c7 : s.pc i = 7
        · have hi := hlock i (by omega) (by omega)
          rw [hl] at hi
          exact absurd (Option.some.inj hi) hk
        · rw [if_neg c0, if_neg c7]
          exact hl

theorem gateReachable_inv (s : GateState) (h : GateReachable s) : GateInv s := by
  induction h with
  | init => exact gateInv_init
  | step s i _ he ih => exact gateInv_step s i ih he

theorem handleTurn_of_error (env : Env) (t : String) (repo : List Entry)
    (state : ConversationState)
    (h : (_generate_response env t repo state).reply = "Error") :
    handleTurn env t repo state =
      { response := "Error", repo := repo
        state := (_generate_response env t repo state).state
        spoken := [], errorsLogged := 1 } := by
  unfold handleTurn
  simp [h]

/-- C1 (counterexample): with a classifier oracle returning the malformed
output `"42"`, the turn's category resolves to the `Error` sentinel, yet the
reply is NOT the standard apology utterance and nothing at all is spoken —
the failure is silent, contradicting the claim (the state is indeed
unchanged). -/
theorem C1_counterexample :
    (handleTurn env42 "hello" [] initialState).response = "Error" ∧
    (handleTurn env42 "hello" [] initialState).response ≠ specApologyText ∧
    (handleTurn env42 "hello" [] initialState).spoken = [] ∧
    (handleTurn env42 "hello" [] initialState).state = initialState := by
  decide

/-- C1 (amended): whenever the turn's generated response is the `Error`
sentinel, the loop body only logs the error — it speaks nothing, appends
nothing to the conversation repository, and produces no apology; moreover,
when the category itself resolved to `Error` (no handler was dispatched) no
conversation state field changes. -/
theorem C1_error_turn_is_silent (env : Env) (t : String) (repo : List Entry)
    (state : ConversationState)
    (h : (_generate_response env t repo state).reply = "Error") :
    (handleTurn env t repo state).response = "Error" ∧
    (handleTurn env t repo state).spoken = [] ∧
    (handleTurn env t repo state).repo = repo ∧
    (handleTurn env t repo state).errorsLogged = 1 ∧
    (_get_handler_function (analyze_user_input env t repo state) = none →
      (handleTurn env t repo state).state = state) := by
  rw [handleTurn_of_error env t repo state h]
  refine ⟨rfl, rfl, rfl, rfl, fun hh => ?_⟩
  simp [_generate_response, hh]

/-- C1 (witness): the amended theorem applied at the malformed-classifier
environment. -/
theorem C1_witness :
    (_generate_response env42 "hello" [] initialState).reply = "Error" ∧
    (handleTurn env42 "hello" [] initialState).spoken = [] :=
  ⟨by decide, (C1_error_turn_is_silent env42 "hello" [] initialState (by decide)).2.1⟩

/-- C2: from any state with `probe_counter = PROBE_LIMIT - 1`, the
`ProbeForFurtherInformation` handler increments the counter to
`PROBE_LIMIT`, sets `probing_completed = true`, and returns exactly the
reply the `AskAboutFilingCase` handler would produce for the same input in
the same turn. -/
theorem C2_probe_cascade (env : Env) (input : String) (repo : List Entry)
    (state : ConversationState) (hl : 1 ≤ env.probeLimit)
    (h : state.probe_counter = env.probeLimit - 1) :
    (_probe_further_information env input repo state).state.probe_counter = env.probeLimit ∧
    (_probe_further_information env input repo state).state.probing_completed = true ∧
    (_probe_further_information env input repo state).reply =
      (_ask_to_file_case env input repo state).reply := by
  have hc : env.probeLimit ≤ state.probe_counter + 1 := by omega
  have hcc : state.probe_counter + 1 = env.probeLimit := by omega
  unfold _probe_further_information
  simp only [if_pos hc]
  refine ⟨?_, ?_, ?_⟩
  · rw [ask_to_file_case_state]; simpa using hcc
  · rw [ask_to_file_case_state]
  · exact ask_to_file_case_reply_ignores_state env input repo _ state

/-- C2 (witness): the probe cascade at `PROBE_LIMIT = 1` from the initial
state. -/
theorem C2_witness :
    (_probe_further_information envLimit1 "no more details" [] initialState).state.probe_counter =
      envLimit1.probeLimit ∧
    (_probe_further_information envLimit1 "no more details" [] initialState).state.probing_completed
      = true ∧
    (_probe_further_information envLimit1 "no more details" [] initialState).reply =
      (_ask_to_file_case envLimit1 "no more details" [] initialState).reply :=
  C2_probe_cascade envLimit1 "no more details" [] initialState (by decide) (by decide)

/-- C3 (code divergence at the failing input): with
`MAX_CONVERSATION_HISTORY = 1`, two turns that each produce a non-Error
reply grow the conversation repository to 2 entries — past the configured
bound, with no FIFO eviction.  No code under `src/` reads
`MAX_CONVERSATION_HISTORY`; the append in the loop body (handler.py lines
62-66) is unconditional. -/
theorem C3_unbounded_history :
    envClosure.maxConversationHistory = 1 ∧
    (runTurns envClosure ["hi", "hi"] [] initialState).1.length = 2 := by
  decide

/-- C4: classifier-output normalization maps "Establish Issue",
"establishissue" and " ESTABLISH-ISSUE " to the same canonical label
`establishissue`; dispatch is decided on the normalized form, so any
category whose normalization is not one of the five canonical labels selects
no handler, and a turn whose analyzed category selects no handler yields the
`Error` sentinel. -/
theorem C4_normalization_and_dispatch :
    (normalize_string "Establish Issue" = "establishissue" ∧
     normalize_string "establishissue" = "establishissue" ∧
     normalize_string " ESTABLISH-ISSUE " = "establishissue") ∧
    (∀ category : String,
      normalize_string category ∉ canonicalLabels →
        _get_handler_function category = none) ∧
    (∀ (env : Env) (input : String) (repo : List Entry) (state : ConversationState),
      _get_handler_function (analyze_user_input env input repo state) = none →
        (_generate_response env input repo state).reply = "Error") := by
  refine ⟨by decide, ?_, ?_⟩
  · intro category h
    simp only [_get_handler_function]
    split_ifs with h1 h2 h3 h4 h5
    · exact absurd (by simp [canonicalLabels, h1]) h
    · exact absurd (by simp [canonicalLabels, h2]) h
    · exact absurd (by simp [canonicalLabels, h3]) h
    · exact absurd (by simp [canonicalLabels, h4]) h
    · exact absurd (by simp [canonicalLabels, h5]) h
    · rfl
  · intro env input repo state h
    simp [_generate_response, h]

/-- C4 (witness): the malformed category "42" normalizes outside the label
set, selects no handler, and the turn result is the Error sentinel. -/
theorem C4_witness :
    (normalize_string "Establish Issue" = "establishissue") ∧
    _get_handler_function "42" = none ∧
    (_generate_response env42 "hi" [] initialState).reply = "Error" :=
  ⟨C4_normalization_and_dispatch.1.1,
   C4_normalization_and_dispatch.2.1 "42" (by decide),
   C4_normalization_and_dispatch.2.2 env42 "hi" [] initialState (by decide)⟩

/-- C5: if the lowercased user input contains "yes", the AskAboutFilingCase
handler invokes the case-filing path exactly once and never generates the
generic ask-for-consent prompt; otherwise it generates the consent-request
reply and never invokes filing. -/
theorem C5_filing_consent (env : Env) (input : String) (repo : List Entry)
    (state : ConversationState) :
    (containsYes input = true →
      (_ask_to_file_case env input repo state).eff.filings = 1 ∧
      (_ask_to_file_case env input repo state).eff.consentPrompts = 0) ∧
    (containsYes input = false →
      (_ask_to_file_case env input repo state).eff.filings = 0 ∧
      (_ask_to_file_case env input repo state).eff.consentPrompts = 1 ∧
      (_ask_to_file_case env input repo state).reply =
        generate_ai_response env (askFilingPrompt input repo)) := by
  unfold _ask_to_file_case _file_case_and_send_email
  by_cases h : containsYes input <;> simp [h]

/-- C5 (witness): both branches at concrete inputs. -/
theorem C5_witness :
    (containsYes "Yes, please" = true ∧
      (_ask_to_file_case env42 "Yes, please" [] initialState).eff.filings = 1 ∧
      (_ask_to_file_case env42 "Yes, please" [] initialState).eff.consentPrompts = 0) ∧
    (containsYes "no thanks" = false ∧
      (_ask_to_file_case env42 "no thanks" [] initialState).eff.filings = 0 ∧
      (_ask_to_file_case env42 "no thanks" [] initialState).eff.consentPrompts = 1) :=
  ⟨⟨by decide,
    (C5_filing_consent env42 "Yes, please" [] initialState).1 (by decide)⟩,
   ⟨by decide,
    ((C5_filing_consent env42 "no thanks" [] initialState).2 (by decide)).1,
    ((C5_filing_consent env42 "no thanks" [] initialState).2 (by decide)).2.1⟩⟩

/-- C6: `analyze_user_input` is a total function of its inputs (it never
raises past its boundary), and on a transport/provider failure of any kind
it returns the `Error` sentinel string to the caller. -/
theorem C6_classifier_absorbs_failure (env : Env) (input : String)
    (repo : List Entry) (state : ConversationState) (e : String)
    (h : env.oracle (classifierPrompt env.provider input repo state) = .error e) :
    analyze_user_input env input repo state = "Error" := by
  unfold analyze_user_input generate_ai_response
  cases hp : env.provider with
  | openAI =>
    rw [hp] at h
    simp [_generate_openai_response, h, Except.map]
    decide
  | anthropicAI =>
    rw [hp] at h
    simp [_generate_anthropic_response, h]
    decide

/-- C6 (witness): a provider that always fails yields the Error sentinel. -/
theorem C6_witness :
    analyze_user_input envFail "hello" [] initialState = "Error" :=
  C6_classifier_absorbs_failure envFail "hello" [] initialState "transport failure" rfl

theorem runHandler_state_cases (env : Env) (tag : HandlerTag) (input : String)
    (repo : List Entry) (s : ConversationState) :
    (runHandler tag env input repo s).state = s ∨
    (runHandler tag env input repo s).state = { s with issue_established := true } ∨
    (runHandler tag env input repo s).state = { s with discrimination_type_categorized := true } ∨
    (runHandler tag env input repo s).state = { s with probe_counter := s.probe_counter + 1 } ∨
    ((runHandler tag env input repo s).state =
        { s with probe_counter := s.probe_counter + 1, probing_completed := true } ∧
      env.probeLimit ≤ s.probe_counter + 1) := by
  cases tag with
  | establishissue => exact Or.inr (Or.inl rfl)
  | categorizediscriminationtype => exact Or.inr (Or.inr (Or.inl rfl))
  | probeforfurtherinformation =>
    rw [show runHandler HandlerTag.probeforfurtherinformation env input repo s =
        _probe_further_information env input repo s from rfl,
      probe_further_information_state]
    by_cases h : env.probeLimit ≤ s.probe_counter + 1
    · exact Or.inr (Or.inr (Or.inr (Or.inr ⟨by rw [if_pos h], h⟩)))
    · exact Or.inr (Or.inr (Or.inr (Or.inl (by rw [if_neg h]))))
  | askaboutfilingcase => exact Or.inl (ask_to_file_case_state env input repo s)
  | closureconversation => exact Or.inl rfl

/-- C7: in every conversation state reachable from the initial state through
stage-handler invocations, `probing_completed = true` implies
`probe_counter ≥ PROBE_LIMIT`; no handler ever decrements `probe_counter`;
and no handler resets a true boolean state field back to false. -/
theorem C7_state_invariants (env : Env) :
    (∀ s, ReachableState env s → s.probing_completed = true →
      env.probeLimit ≤ s.probe_counter) ∧
    (∀ (tag : HandlerTag) (input : String) (repo : List Entry) (s : ConversationState),
      s.probe_counter ≤ (runHandler tag env input repo s).state.probe_counter) ∧
    (∀ (tag : HandlerTag) (input : String) (repo : List Entry) (s : ConversationState),
      (s.issue_established = true →
        (runHandler tag env input repo s).state.issue_established = true) ∧
      (s.discrimination_type_categorized = true →
        (runHandler tag env input repo s).state.discrimination_type_categorized = true) ∧
      (s.probing_completed = true →
        (runHandler tag env input repo s).state.probing_completed = true) ∧
      (s.user_agreed_to_file_case = true →
        (runHandler tag env input repo s).state.user_agreed_to_file_case = true)) := by
  refine ⟨?_, ?_, ?_⟩
  · intro s hr
    induction hr with
    | init => intro hpc; simp [initialState] at hpc
    | step s tag input repo _ ih =>
      intro hpc
      rcases runHandler_state_cases env tag input repo s with h | h | h | h | ⟨h, hg⟩
      · rw [h] at hpc ⊢; exact ih hpc
      · rw [h] at hpc ⊢; simp only at hpc ⊢; exact ih hpc
      · rw [h] at hpc ⊢; simp only at hpc ⊢; exact ih hpc
      · rw [h] at hpc ⊢
        simp only at hpc ⊢
        exact Nat.le_succ_of_le (ih hpc)
      · rw [h]; simp only; exact hg
  · intro tag input repo s
    rcases runHandler_state_cases env tag input repo s with h | h | h | h | ⟨h, _⟩ <;>
      rw [h]
    all_goals exact Nat.le_succ _
  · intro tag input repo s
    rcases runHandler_state_cases env tag input repo s with h | h | h | h | ⟨h, _⟩ <;>
      rw [h] <;> simp

/-- C7 (witness): with `PROBE_LIMIT = 1`, the state reached by one probe step
from the initial state has `probing_completed = true`, and the invariant
instantiates there; counter monotonicity instantiates at the
EstablishIssue handler. -/
theorem C7_witness :
    (runHandler .probeforfurtherinformation envLimit1 "hi" [] initialState).state.probing_completed
      = true ∧
    envLimit1.probeLimit ≤
      (runHandler .probeforfurtherinformation envLimit1 "hi" [] initialState).state.probe_counter ∧
    initialState.probe_counter ≤
      (runHandler .establishissue envLimit1 "hi" [] initialState).state.probe_counter :=
  ⟨by decide,
   (C7_state_invariants envLimit1).1 _
     (ReachableState.step initialState .probeforfurtherinformation "hi" [] ReachableState.init)
     (by decide),
   (C7_state_invariants envLimit1).2.1 .establishissue "hi" [] initialState⟩

/-- C8: for every speak invocation with non-empty, non-whitespace text, on
every exit path — synthesis and playback both succeeding, synthesis failing,
or playback failing — the `speaking = false` observer notification is
delivered, and the internal `_speaking_event` is set (released) as the very
last action. -/
theorem C8_notify_false_on_every_exit (synth play : Except String Unit) (text : String)
    (h : pyStrip text ≠ "") :
    TtsEvent.notify false ∈ speak_with_wavenet synth play text ∧
    (speak_with_wavenet synth play text).getLast? = some TtsEvent.eventSet := by
  have hne : ¬(text = "" ∨ pyStrip text = "") := by
    rintro (rfl | hh)
    · exact h rfl
    · exact h hh
  cases synth with
  | error e =>
    have ht : speak_with_wavenet (.error e) play text =
        [.eventCleared, .notify true, .errorLogged, .notify false, .eventSet] := by
      unfold speak_with_wavenet
      rw [if_neg hne]
      rfl
    rw [ht]
    decide
  | ok u =>
    cases play with
    | error e =>
      have ht : speak_with_wavenet (.ok u) (.error e) text =
          [.eventCleared, .notify true, .synthesized, .errorLogged, .notify false,
           .errorLogged, .notify false, .eventSet] := by
        unfold speak_with_wavenet
        rw [if_neg hne]
        rfl
      rw [ht]
      decide
    | ok v =>
      have ht : speak_with_wavenet (.ok u) (.ok v) text =
          [.eventCleared, .notify true, .synthesized, .played, .notify false, .eventSet] := by
        unfold speak_with_wavenet
        rw [if_neg hne]
        rfl
      rw [ht]
      decide

/-- C8 (witness): the fully successful path at concrete text. -/
theorem C8_witness :
    TtsEvent.notify false ∈ speak_with_wavenet (.ok ()) (.ok ()) "Hello there" ∧
    (speak_with_wavenet (.ok ()) (.ok ()) "Hello there").getLast? = some TtsEvent.eventSet :=
  C8_notify_false_on_every_exit (.ok ()) (.ok ()) "Hello there" (by decide)

/-- C9: in every state reachable by interleaving two concurrent
`speak_with_wavenet` invocations, the two `speaking = true` windows never
overlap, and while one call's synthesis has begun but its turn is not over,
the other call has either not started at all or has already completed — in
particular its `speaking = false` notification has already fired. -/
theorem C9_speech_gate_exclusion (s : GateState) (hs : GateReachable s)
    (i j : Fin 2) (hij : i ≠ j) :
    ¬(speakingWindow s i ∧ speakingWindow s j) ∧
    (4 ≤ s.pc i → s.pc i ≤ 7 → s.pc j = 0 ∨ s.pc j = 8) := by
  obtain ⟨hle, hlock⟩ := gateReachable_inv s hs
  constructor
  · rintro ⟨⟨hi1, hi2⟩, hj1, hj2⟩
    have h1 := hlock i (by omega) (by omega)
    have h2 := hlock j (by omega) (by omega)
    rw [h1] at h2
    exact hij (Option.some.inj h2)
  · intro h4 h7
    by_cases hj : 1 ≤ s.pc j ∧ s.pc j ≤ 7
    · have h1 := hlock i (by omega) (by omega)
      have h2 := hlock j hj.1 hj.2
      rw [h1] at h2
      exact absurd (Option.some.inj h2) hij
    · have := hle j
      omega

/-- C9 (witness): the exclusion theorem applied at a concrete reachable
state in which the first task is inside its speaking window. -/
theorem C9_witness :
    ¬(speakingWindow gate3 0 ∧ speakingWindow gate3 1) ∧
    (4 ≤ gate3.pc 0 → gate3.pc 0 ≤ 7 → gate3.pc 1 = 0 ∨ gate3.pc 1 = 8) :=
  C9_speech_gate_exclusion gate3
    (GateReachable.step gate2 0
      (GateReachable.step gate1 0
        (GateReachable.step gateInit 0 GateReachable.init (by decide))
        (by decide))
      (by decide))
    0 1 (by decide)

/-- C10: the EstablishIssue handler sets `issue_established` and the
CategorizeDiscriminationType handler sets `discrimination_type_categorized`
unconditionally; even when the underlying LLM generation fails, the
generation call absorbs its own exception into the `"Error"` reply and the
flag is still set. -/
theorem C10_flags_set_unconditionally (env : Env) (input : String) (repo : List Entry)
    (state : ConversationState) :
    (_establish_issue env input repo state).state.issue_established = true ∧
    (_categorize_discrimination env input repo state).state.discrimination_type_categorized
      = true ∧
    (∀ e, env.oracle (establishIssuePrompt input repo) = .error e →
      (_establish_issue env input repo state).reply = "Error") ∧
    (∀ e, env.oracle (categorizeDiscriminationPrompt input repo) = .error e →
      (_categorize_discrimination env input repo state).reply = "Error") := by
  refine ⟨rfl, rfl, ?_, ?_⟩
  · intro e h
    unfold _establish_issue generate_ai_response
    cases hp : env.provider with
    | openAI => simp [_generate_openai_response, h, Except.map]
    | anthropicAI => simp [_generate_anthropic_response, h]
  · intro e h
    unfold _categorize_discrimination generate_ai_response
    cases hp : env.provider with
    | openAI => simp [_generate_openai_response, h, Except.map]
    | anthropicAI => simp [_generate_anthropic_response, h]

/-- C10 (witness): under an always-failing provider the flag is still set
and the reply is the Error sentinel. -/
theorem C10_witness :
    (_establish_issue envFail "hi" [] initialState).state.issue_established = true ∧
    (_establish_issue envFail "hi" [] initialState).reply = "Error" :=
  ⟨(C10_flags_set_unconditionally envFail "hi" [] initialState).1,
   (C10_flags_set_unconditionally envFail "hi" [] initialState).2.2.1 "transport failure" rfl⟩
